import Mathlib

/-!
Verification of the consumer-side dataspace client
(`src/consumer/dataspace_client.py`) of the rox-poc1-automatica-workflow
repository, against its natural-language specification.

The embedding models JSON values (`JVal`) as parsed Python objects,
Python dictionaries as association lists with unique keys, Python
truthiness (`truthy`), `dict.get` (`getField`, `getFieldD`), item
assignment (`dictSet`) and exceptions (`Except`).  Each function of the
source that the claims mention is translated into a Lean function of the
same name.
-/

set_option autoImplicit false

namespace Rox

/-- A parsed JSON value, as produced by `response.json()` in the source.
Floats are not needed by any claim and are omitted. -/
inductive JVal where
  | null
  | bool (b : Bool)
  | num (n : Int)
  | str (s : String)
  | arr (items : List JVal)
  | obj (fields : List (String × JVal))

/-- A Python dictionary with string keys, as an association list. -/
abbrev PyDict := List (String × JVal)

/-- Python truthiness of a JSON value (`if x:`):
None, empty string, zero, empty list and empty dict are falsy. -/
def truthy : JVal → Bool
  | .null => false
  | .bool b => b
  | .num n => n != 0
  | .str s => !(s == "")
  | .arr items => !items.isEmpty
  | .obj fields => !fields.isEmpty

/-- Python truthiness of an optional string argument
(`if asset_id_filter:` where the parameter defaults to `None`). -/
def optStrTruthy : Option String → Bool
  | none => false
  | some s => !(s == "")

/-- Python `d.get(k)`: the value of the first matching key, or `None`
(JSON `null`) when the key is absent. -/
def getField : PyDict → String → JVal
  | [], _ => .null
  | (k0, v0) :: rest, k => if k0 == k then v0 else getField rest k

/-- Python `d.get(k, default)`: the stored value when the key is present
(even if that value is falsy), the default only when the key is absent. -/
def getFieldD : PyDict → String → JVal → JVal
  | [], _, d => d
  | (k0, v0) :: rest, k, d => if k0 == k then v0 else getFieldD rest k d

/-- Python `k in d`. -/
def containsKey : PyDict → String → Bool
  | [], _ => false
  | (k0, _) :: rest, k => k0 == k || containsKey rest k

/-- Python `d[k] = v`: replace the value of the first occurrence of the
key, or append the pair when the key is absent. -/
def dictSet : PyDict → String → JVal → PyDict
  | [], k, v => [(k, v)]
  | (k0, v0) :: rest, k, v =>
      if k0 == k then (k0, v) :: rest else (k0, v0) :: dictSet rest k v

/-- Python `x == s` for a JSON value `x` and a string `s`: true exactly
when `x` is the same string (Python cross-type equality with a string is
false). -/
def isStrEq (v : JVal) (s : String) : Bool :=
  match v with
  | .str t => t == s
  | _ => false

/-- `dict.get` on an arbitrary JSON value: total accessor used where the
source has already checked `isinstance(x, dict)`. -/
def pyGet (v : JVal) (k : String) : JVal :=
  match v with
  | .obj fields => getField fields k
  | _ => .null

/-! ## Data Fetcher filename derivation (`access_data`, lines 653-676) -/

/-- Python `s.strip(c)` for a single-character argument: remove every
leading and trailing occurrence of that character. -/
def pyStrip (c : Char) (s : String) : String :=
  String.mk (((s.toList.dropWhile (fun x => x == c)).reverse.dropWhile
    (fun x => x == c)).reverse)

/-- Whether `sep` is an initial segment of `s` (helper for `pySplit`). -/
def beginsWith : List Char → List Char → Bool
  | [], _ => true
  | _ :: _, [] => false
  | c :: cs, d :: ds => c == d && beginsWith cs ds

/-- Worker for `pySplit`: scan left to right, cutting at every
non-overlapping occurrence of the separator.  The fuel argument (the
length of the scanned list at the top call) only makes the recursion
structural; it never runs out for a non-empty separator. -/
def pySplitAux (sep : List Char) : Nat → List Char → List Char → List (List Char)
  | _, [], acc => [acc.reverse]
  | 0, s, acc => [acc.reverse ++ s]
  | fuel + 1, c :: cs, acc =>
    if beginsWith sep (c :: cs) then
      acc.reverse :: pySplitAux sep fuel (List.drop sep.length (c :: cs)) []
    else
      pySplitAux sep fuel cs (c :: acc)

/-- Python `s.split(sep)` for a non-empty separator. -/
def pySplit (sep s : String) : List String :=
  (pySplitAux sep.toList s.toList.length s.toList []).map String.mk

/-- `os.path.basename`: everything after the last path separator. -/
def posixBasename (s : String) : String :=
  (pySplit "/" s).getLastD ""

/-- The characters kept by the sanitizer:
`c.isalnum() or c in (".", "_", "-")`. -/
def isSafeChar (c : Char) : Bool :=
  c.isAlphanum || c == '.' || c == '_' || c == '-'

/-- The sanitization step of `access_data`: take the path basename of the
derived filename, then replace every unsafe character with an
underscore. -/
def sanitizeFilename (filename : String) : String :=
  String.mk ((posixBasename filename).toList.map
    (fun c => if isSafeChar c then c else '_'))

/-- Filename derivation from the `Content-Disposition` header
(`access_data`, lines 655-665): split on `filename=`, take the second
part, strip surrounding double quotes then single quotes, keep the
default name when the header or the derived name is missing or empty. -/
def deriveFilename (contentDisposition : Option String) : String :=
  let dflt := "downloaded_data.dat"
  match contentDisposition with
  | none => dflt
  | some cd =>
    if cd == "" then dflt
    else
      match pySplit "filename=" cd with
      | _ :: p1 :: _ =>
          let f := pyStrip (Char.ofNat 39) (pyStrip (Char.ofNat 34) p1)
          if f == "" then dflt else f
      | _ => dflt

/-- The local filename chosen by `access_data` for the download: the
sanitized derived name, or the timestamp fallback `download_<epoch>.dat`
when sanitization yields the empty string.  `now` is the value of
`int(time.time())`. -/
def access_data_filename (contentDisposition : Option String) (now : Nat) : String :=
  let safe := sanitizeFilename (deriveFilename contentDisposition)
  if safe == "" then "download_" ++ toString now ++ ".dat" else safe

/-! ## Catalog Resolver (`request_catalog`, lines 243-362)

The function is modelled from the parsed 2xx response body onwards
(`response_data`), the part the claims are about.  The `Except` layer
models an uncaught Python exception: `response_data.get("error")` raises
`AttributeError` when the parsed body is not a dict. -/

/-- The dataset value extracted from a catalog response dict:
`response_data.get("dcat:dataset", response_data.get("edc:datasets"))`. -/
def catalogDatasets (fields : PyDict) : JVal :=
  getFieldD fields "dcat:dataset" (getField fields "edc:datasets")

/-- The linear scan of a dataset list under an id filter (lines 327-339):
return the first dict element whose `@id` equals the filter. -/
def findDatasetById (a : String) : List JVal → Option JVal
  | [] => none
  | d :: rest =>
    match d with
    | .obj fs => if isStrEq (getField fs "@id") a then some (.obj fs) else findDatasetById a rest
    | _ => findDatasetById a rest

/-- Normalization of the dataset value (lines 303-362): empty/missing
value reports no datasets; under a (truthy) filter a single dict is
accepted only on id match and a list is scanned; without a filter a list
is returned as is and a single dict is wrapped; other shapes report
failure.  Every failure path of the source returns `None`, modelled as
`none`. -/
def normalizeDatasets (assetIdFilter : Option String) (datasets : JVal) : Option JVal :=
  if !truthy datasets then none
  else if optStrTruthy assetIdFilter then
    let a := assetIdFilter.getD ""
    match datasets with
    | .obj fs => if isStrEq (getField fs "@id") a then some (.obj fs) else none
    | .arr items => findDatasetById a items
    | _ => none
  else
    match datasets with
    | .arr items => some (.arr items)
    | .obj fs => some (.arr [.obj fs])
    | _ => none

/-- `request_catalog`, from the parsed response body onwards.  The guard
`if not response_data or response_data.get("error"): return None`
evaluates truthiness first and only then calls `.get`, which raises on a
non-dict body. -/
def request_catalog (responseData : JVal) (assetIdFilter : Option String) :
    Except String (Option JVal) :=
  if !truthy responseData then .ok none
  else
    match responseData with
    | .obj fields =>
        if truthy (getField fields "error") then .ok none
        else .ok (normalizeDatasets assetIdFilter (catalogDatasets fields))
    | _ => .error "AttributeError: get on non-dict response"

/-- `get_data_address` (lines 584-598), from the parsed response body
onwards: `if response_data and not response_data.get("error"): return
response_data else: return None`, where `.get` raises on a non-dict
body. -/
def get_data_address (responseData : JVal) : Except String (Option JVal) :=
  if !truthy responseData then .ok none
  else
    match responseData with
    | .obj fields =>
        if truthy (getField fields "error") then .ok none
        else .ok (some (.obj fields))
    | _ => .error "AttributeError: get on non-dict response"

/-! ## Negotiation Initiator (`initiate_contract`, lines 364-431) -/

/-- The augmented policy sent in the negotiation body (lines 388-397):
a copy of the catalog policy with `odrl:target` and `odrl:assigner`
overwritten and a defaulted `@type` when the tag is absent. -/
def policy_to_send (assetId bpn : String) (policy : PyDict) : PyDict :=
  let p1 := dictSet policy "odrl:target" (.obj [("@id", .str assetId)])
  let p2 := dictSet p1 "odrl:assigner" (.obj [("@id", .str bpn)])
  if containsKey p2 "@type" then p2 else dictSet p2 "@type" (.str "odrl:Offer")

/-- The full ContractRequest payload built by `initiate_contract`
(lines 400-411). -/
def initiate_contract_payload (assetId bpn edcNamespace protocolUrl : String)
    (policy : PyDict) : JVal :=
  .obj [("@context", .obj [
          ("odrl", .str "http://www.w3.org/ns/odrl/2/"),
          ("edc", .str edcNamespace),
          ("cx-policy", .str "https://w3id.org/catenax/policy/"),
          ("tx", .str "https://w3id.org/tractusx/v0.0.1/ns/")]),
        ("@type", .str "ContractRequest"),
        ("counterPartyAddress", .str protocolUrl),
        ("protocol", .str "dataspace-protocol-http"),
        ("policy", .obj (policy_to_send assetId bpn policy))]

/-! ### Heap model for the mutation claim

`full_policy_object.copy()` allocates a fresh dict and the three item
assignments act on that fresh address only.  A store of dicts indexed by
allocation order models the Python object heap. -/

/-- A heap of Python dict objects; an address is an index. -/
abbrev Store := List PyDict

/-- The in-place assignment `heap[i][k] = v`. -/
def storeAssign (heap : Store) (i : Nat) (k : String) (v : JVal) : Store :=
  heap.set i (dictSet (heap.getD i []) k v)

/-- `initiate_contract` at heap level: copy the caller's policy dict to a
fresh address, then perform the three augmenting assignments on the
fresh address (lines 388-397).  Returns the final heap and the address
of the dict that is sent. -/
def initiate_contract_heap (heap : Store) (policyRef : Nat) (assetId bpn : String) :
    Store × Nat :=
  let i := heap.length
  let h1 := heap ++ [heap.getD policyRef []]
  let h2 := storeAssign h1 i "odrl:target" (.obj [("@id", .str assetId)])
  let h3 := storeAssign h2 i "odrl:assigner" (.obj [("@id", .str bpn)])
  let h4 := if containsKey (h3.getD i []) "@type" then h3
            else storeAssign h3 i "@type" (.str "odrl:Offer")
  (h4, i)

/-! ## Data Fetcher credential selection (`access_data`, lines 620-651) -/

/-- The credential key chosen by `access_data`: `authorization` when that
key is present, else `authCode` when present, else none (lines
624-628). -/
def selectAuthKey (addr : PyDict) : Option String :=
  if containsKey addr "authorization" then some "authorization"
  else if containsKey addr "authCode" then some "authCode"
  else none

/-- The endpoint and single-header map with which `access_data` issues
the streaming download, or the incomplete-data-address failure (lines
620-639): `if not endpoint or not auth_token_value: return None`. -/
def access_data_request (addr : PyDict) :
    Except String (JVal × List (String × JVal)) :=
  let endpoint := getField addr "endpoint"
  match selectAuthKey addr with
  | some k =>
      let v := getField addr k
      if !truthy endpoint || !truthy v then .error "incomplete data address"
      else .ok (endpoint, [(k, v)])
  | none =>
      .error "incomplete data address"

/-! ## EDR Poller (`get_cached_edrs`, lines 433-563)

The poller is modelled over a scripted sequence of parsed responses
(`script i` is the body of attempt `i`, zero-indexed) and a scripted
request duration (`reqDur i` time units for attempt `i`); the
inter-attempt sleep takes `interval` time units.  The wall clock is the
accumulated `elapsed` value. -/

/-- Whether an EDR cache entry passes the asset filter (lines 519-526):
`if asset_id_for_filter and edr_entry.get("assetId") != asset_id_for_filter:
continue`. -/
def matchesFilter (filter : Option String) (entry : PyDict) : Bool :=
  !optStrTruthy filter || isStrEq (getField entry "assetId") (filter.getD "")

/-- The scan over one batch of EDR entries (lines 516-539): the first
dict entry that passes the filter and has a truthy `transferProcessId`
is the terminal success. -/
def findFinalized (filter : Option String) : List JVal → Option (JVal × JVal)
  | [] => none
  | e :: rest =>
    match e with
    | .obj fs =>
        if matchesFilter filter fs then
          let tp := getField fs "transferProcessId"
          if truthy tp then some (tp, .obj fs) else findFinalized filter rest
        else findFinalized filter rest
    | _ => findFinalized filter rest

/-- Classification of one polling response (lines 506-546): only a list
is scanned; an error dict, any other dict, and any other shape are
transient and yield no success. -/
def scanEdrResponse (filter : Option String) (r : JVal) : Option (JVal × JVal) :=
  match r with
  | .arr entries => findFinalized filter entries
  | _ => none

/-- The observable outcome of one `get_cached_edrs` run: the number of
cache requests issued, the elapsed time at return, and the returned
`(transferProcessId, edr_entry)` pair (`(none, none)` on timeout). -/
structure PollOutcome where
  requests : Nat
  elapsed : Nat
  transferProcessId : Option JVal
  entry : Option JVal

/-- The polling loop of `get_cached_edrs` (lines 482-558).  Per
iteration: re-check the deadline, issue the request for attempt `k`,
scan the batch, return on success, re-check the deadline before the
sleep, sleep for `interval` and retry.  The fuel argument makes the
recursion structural; `get_cached_edrs` passes `timeout + 1`, which is
never exhausted when `0 < interval` because every iteration advances the
clock by at least `interval`. -/
def pollLoop (filter : Option String) (timeout interval : Nat)
    (script : Nat → JVal) (reqDur : Nat → Nat) :
    Nat → Nat → Nat → PollOutcome
  | 0, k, e => ⟨k, e, none, none⟩
  | fuel + 1, k, e =>
    if timeout ≤ e then ⟨k, e, none, none⟩
    else
      let e2 := e + reqDur k
      match scanEdrResponse filter (script k) with
      | some (tp, entry) => ⟨k + 1, e2, some tp, some entry⟩
      | none =>
          if timeout ≤ e2 then ⟨k + 1, e2, none, none⟩
          else pollLoop filter timeout interval script reqDur fuel (k + 1) (e2 + interval)

/-- `get_cached_edrs` over a scripted sequence of responses: run the
polling loop from a zero clock. -/
def get_cached_edrs (filter : Option String) (timeout interval : Nat)
    (script : Nat → JVal) (reqDur : Nat → Nat) : PollOutcome :=
  pollLoop filter timeout interval script reqDur (timeout + 1) 0 0

/-! ## Helper lemmas on dictionaries and stores -/

theorem getField_dictSet_self (d : PyDict) (k : String) (v : JVal) :
    getField (dictSet d k v) k = v := by
  induction d with
  | nil => simp [dictSet, getField]
  | cons p rest ih =>
    obtain ⟨k0, v0⟩ := p
    by_cases h : (k0 == k) = true
    · simp [dictSet, getField, h]
    · simp only [Bool.not_eq_true] at h
      simp [dictSet, getField, h, ih]

theorem getField_dictSet_ne (d : PyDict) (k k' : String) (v : JVal) (h : k ≠ k') :
    getField (dictSet d k v) k' = getField d k' := by
  induction d with
  | nil =>
    have hk : (k == k') = false := by simpa using h
    simp [dictSet, getField, hk]
  | cons p rest ih =>
    obtain ⟨k0, v0⟩ := p
    by_cases h0 : (k0 == k) = true
    · have h0' : k0 = k := by simpa using h0
      have hk : (k0 == k') = false := by simpa [h0'] using h
      simp [dictSet, getField, h0, hk]
    · simp only [Bool.not_eq_true] at h0
      simp [dictSet, getField, h0, ih]

theorem containsKey_dictSet_ne (d : PyDict) (k k' : String) (v : JVal) (h : k ≠ k') :
    containsKey (dictSet d k v) k' = containsKey d k' := by
  induction d with
  | nil =>
    have hk : (k == k') = false := by simpa using h
    simp [dictSet, containsKey, hk]
  | cons p rest ih =>
    obtain ⟨k0, v0⟩ := p
    by_cases h0 : (k0 == k) = true
    · simp [dictSet, containsKey, h0]
    · simp only [Bool.not_eq_true] at h0
      simp [dictSet, containsKey, h0, ih]

theorem getD_set_ne (l : Store) (i j : Nat) (d : PyDict) (h : i ≠ j) :
    (l.set i d).getD j [] = l.getD j [] := by
  induction l generalizing i j with
  | nil => simp
  | cons a l ih =>
    cases i with
    | zero =>
      cases j with
      | zero => exact absurd rfl h
      | succ j => simp
    | succ i =>
      cases j with
      | zero => simp
      | succ j => simpa using ih i j (by omega)

theorem getD_set_self (l : Store) (i : Nat) (d : PyDict) (h : i < l.length) :
    (l.set i d).getD i [] = d := by
  induction l generalizing i with
  | nil => simp at h
  | cons a l ih =>
    cases i with
    | zero => simp
    | succ i => simpa using ih i (by simpa using h)

theorem getD_append_left (l l2 : Store) (j : Nat) (h : j < l.length) :
    (l ++ l2).getD j [] = l.getD j [] := by
  induction l generalizing j with
  | nil => simp at h
  | cons a l ih =>
    cases j with
    | zero => simp
    | succ j => simpa using ih j (by simpa using h)

theorem getD_append_self (l : Store) (d : PyDict) :
    (l ++ [d]).getD l.length [] = d := by
  induction l with
  | nil => simp
  | cons a l ih => simp [ih]

/-! ## C5: policy augmentation in the negotiation body -/

/-- C5 (confirmed).  For every `(assetId, policy)` input, the
ContractRequest body built by `initiate_contract` carries the augmented
policy; in it `odrl:target` equals `{"@id": assetId}` and
`odrl:assigner` equals `{"@id": provider_bpn}`, regardless of any
pre-existing values in the input policy; and when the input policy has
no `@type` key, the sent policy carries the default `odrl:Offer`. -/
theorem c5_policy_augmentation (assetId bpn edcNamespace protocolUrl : String)
    (policy : PyDict) :
    pyGet (initiate_contract_payload assetId bpn edcNamespace protocolUrl policy) "policy"
        = .obj (policy_to_send assetId bpn policy)
  ∧ getField (policy_to_send assetId bpn policy) "odrl:target"
        = .obj [("@id", .str assetId)]
  ∧ getField (policy_to_send assetId bpn policy) "odrl:assigner"
        = .obj [("@id", .str bpn)]
  ∧ (containsKey policy "@type" = false →
      getField (policy_to_send assetId bpn policy) "@type" = .str "odrl:Offer") := by
  refine ⟨rfl, ?_, ?_, ?_⟩
  · unfold policy_to_send
    dsimp only
    split
    · rw [getField_dictSet_ne _ _ _ _ (by decide), getField_dictSet_self]
    · rw [getField_dictSet_ne _ _ _ _ (by decide),
        getField_dictSet_ne _ _ _ _ (by decide), getField_dictSet_self]
  · unfold policy_to_send
    dsimp only
    split
    · rw [getField_dictSet_self]
    · rw [getField_dictSet_ne _ _ _ _ (by decide), getField_dictSet_self]
  · intro h
    unfold policy_to_send
    dsimp only
    have hc : containsKey
        (dictSet (dictSet policy "odrl:target" (.obj [("@id", .str assetId)]))
          "odrl:assigner" (.obj [("@id", .str bpn)])) "@type" = false := by
      rw [containsKey_dictSet_ne _ _ _ _ (by decide),
        containsKey_dictSet_ne _ _ _ _ (by decide), h]
    rw [if_neg (by simp [hc]), getField_dictSet_self]

/-- Witness for C5 at a concrete policy without a type tag. -/
theorem c5_policy_augmentation_witness :
    getField (policy_to_send "asset-1" "BPNL00000001" [("@id", .str "p1")]) "odrl:target"
        = .obj [("@id", .str "asset-1")]
  ∧ getField (policy_to_send "asset-1" "BPNL00000001" [("@id", .str "p1")]) "@type"
        = .str "odrl:Offer" :=
  ⟨(c5_policy_augmentation "asset-1" "BPNL00000001" "ns" "purl" [("@id", .str "p1")]).2.1,
   (c5_policy_augmentation "asset-1" "BPNL00000001" "ns" "purl" [("@id", .str "p1")]).2.2.2 rfl⟩

/-! ## C8: the caller's policy object is not mutated -/

/-- C8 (confirmed).  `initiate_contract` copies the catalog policy dict
to a fresh heap address and augments only the copy: after the call the
dict at the caller's address is unchanged, the sent dict lives at a
distinct address, and the dict at that address is exactly the augmented
policy. -/
theorem c8_policy_not_mutated (heap : Store) (policyRef : Nat) (assetId bpn : String)
    (h : policyRef < heap.length) :
    (initiate_contract_heap heap policyRef assetId bpn).1.getD policyRef []
        = heap.getD policyRef []
  ∧ (initiate_contract_heap heap policyRef assetId bpn).2 ≠ policyRef
  ∧ (initiate_contract_heap heap policyRef assetId bpn).1.getD
        (initiate_contract_heap heap policyRef assetId bpn).2 []
      = policy_to_send assetId bpn (heap.getD policyRef []) := by
  have hne : heap.length ≠ policyRef := by omega
  have hlt1 : heap.length < (heap ++ [heap.getD policyRef []]).length := by simp
  have hget1 : (heap ++ [heap.getD policyRef []]).getD heap.length []
      = heap.getD policyRef [] := getD_append_self heap _
  unfold initiate_contract_heap storeAssign
  dsimp only
  constructor
  · split
    · rw [getD_set_ne _ _ _ _ hne, getD_set_ne _ _ _ _ hne,
        getD_append_left _ _ _ h]
    · rw [getD_set_ne _ _ _ _ hne, getD_set_ne _ _ _ _ hne,
        getD_set_ne _ _ _ _ hne, getD_append_left _ _ _ h]
  constructor
  · exact hne
  · rw [hget1]
    have hlt2 : heap.length < (((heap ++ [heap.getD policyRef []]).set heap.length
        (dictSet (heap.getD policyRef []) "odrl:target"
          (.obj [("@id", .str assetId)])))).length := by simp [hlt1]
    rw [getD_set_self _ _ _ hlt1]
    rw [getD_set_self _ _ _ hlt2]
    have hlt3 : heap.length < ((((heap ++ [heap.getD policyRef []]).set heap.length
        (dictSet (heap.getD policyRef []) "odrl:target"
          (.obj [("@id", .str assetId)]))).set heap.length
        (dictSet (dictSet (heap.getD policyRef []) "odrl:target"
            (.obj [("@id", .str assetId)]))
          "odrl:assigner" (.obj [("@id", .str bpn)])))).length := by
      simp [hlt2]
    unfold policy_to_send
    dsimp only
    split
    · exact getD_set_self _ _ _ hlt2
    · exact getD_set_self _ _ _ hlt3

/-! ## C6: credential selection in the Data Fetcher -/

/-- C6 (confirmed).  A data address with only `authCode` (and a truthy
endpoint and value) issues the download with exactly the single header
`authCode`; one with `authorization` present selects the `authorization`
key (and uses it as the single header when its value is truthy); one
with neither credential key, or one lacking a truthy `endpoint`, fails
with the incomplete-data-address error before any download request. -/
theorem c6_credential_selection (addr : PyDict) :
    (containsKey addr "authorization" = false → containsKey addr "authCode" = true →
      truthy (getField addr "endpoint") = true → truthy (getField addr "authCode") = true →
      access_data_request addr
        = .ok (getField addr "endpoint", [("authCode", getField addr "authCode")]))
  ∧ (containsKey addr "authorization" = true →
      selectAuthKey addr = some "authorization"
      ∧ (truthy (getField addr "endpoint") = true →
         truthy (getField addr "authorization") = true →
          access_data_request addr
            = .ok (getField addr "endpoint",
                [("authorization", getField addr "authorization")])))
  ∧ (containsKey addr "authorization" = false → containsKey addr "authCode" = false →
      access_data_request addr = .error "incomplete data address")
  ∧ (truthy (getField addr "endpoint") = false →
      access_data_request addr = .error "incomplete data address") := by
  refine ⟨?_, ?_, ?_, ?_⟩
  · intro h1 h2 he hv
    simp [access_data_request, selectAuthKey, h1, h2, he, hv]
  · intro h1
    refine ⟨by simp [selectAuthKey, h1], ?_⟩
    intro he hv
    simp [access_data_request, selectAuthKey, h1, he, hv]
  · intro h1 h2
    simp [access_data_request, selectAuthKey, h1, h2]
  · intro he
    unfold access_data_request
    cases hsel : selectAuthKey addr with
    | none => simp
    | some k => simp [he]

/-- Witness for C6: the three credential configurations at concrete
addresses. -/
theorem c6_credential_selection_witness :
    access_data_request [("endpoint", .str "http://e"), ("authCode", .str "tok")]
        = .ok (.str "http://e", [("authCode", .str "tok")])
  ∧ access_data_request [("endpoint", .str "http://e"), ("authorization", .str "tokA"),
        ("authCode", .str "tokB")]
        = .ok (.str "http://e", [("authorization", .str "tokA")])
  ∧ access_data_request [("endpoint", .str "http://e")]
        = .error "incomplete data address" :=
  ⟨(c6_credential_selection [("endpoint", .str "http://e"), ("authCode", .str "tok")]).1
      rfl rfl rfl rfl,
   ((c6_credential_selection [("endpoint", .str "http://e"), ("authorization", .str "tokA"),
      ("authCode", .str "tokB")]).2.1 rfl).2 rfl rfl,
   (c6_credential_selection [("endpoint", .str "http://e")]).2.2.1 rfl rfl⟩

/-! ## C10: credential selection is by key presence, not value -/

/-- C10 (confirmed).  When the key `authorization` is present with a
falsy (null or empty) value, `access_data` selects it anyway and then
fails with the incomplete-data-address error, even though a truthy
`authCode` credential is also present. -/
theorem c10_presence_decides_credential (addr : PyDict)
    (h1 : containsKey addr "authorization" = true)
    (h2 : truthy (getField addr "authorization") = false)
    (_h3 : containsKey addr "authCode" = true)
    (_h4 : truthy (getField addr "authCode") = true) :
    access_data_request addr = .error "incomplete data address" := by
  simp [access_data_request, selectAuthKey, h1, h2]

/-- Witness for C10: `authorization` null, `authCode` non-empty. -/
theorem c10_presence_decides_credential_witness :
    access_data_request [("endpoint", .str "http://e"), ("authorization", .null),
        ("authCode", .str "tok")] = .error "incomplete data address" :=
  c10_presence_decides_credential _ rfl rfl rfl rfl

/-! ## C2: filename derivation -/

/-- C2 counterexample.  For the header
`attachment; filename="a/b*c.tar.gz"` the code first takes the path
basename (dropping `a/`) and only then sanitizes, so the saved name is
`b_c.tar.gz`, not the `a_b_c.tar.gz` the claim states. -/
theorem c2_counterexample :
    access_data_filename (some "attachment; filename=\"a/b*c.tar.gz\"") 0 = "b_c.tar.gz"
  ∧ "b_c.tar.gz" ≠ "a_b_c.tar.gz" := ⟨rfl, by decide⟩

/-- C2 (amended).  For the header `attachment; filename="a/b*c.tar.gz"`
the derived local filename is `b_c.tar.gz` (basename first, then every
character outside alphanumeric, dot, underscore, hyphen replaced by an
underscore); and whenever the sanitized derived name is empty, the saved
filename is the timestamp fallback `download_<epoch>.dat`. -/
theorem c2_filename_sanitization :
    (∀ now : Nat,
      access_data_filename (some "attachment; filename=\"a/b*c.tar.gz\"") now
        = "b_c.tar.gz")
  ∧ (∀ (cd : Option String) (now : Nat),
      sanitizeFilename (deriveFilename cd) = "" →
      access_data_filename cd now = "download_" ++ toString now ++ ".dat") := by
  constructor
  · intro now
    rfl
  · intro cd now h
    simp [access_data_filename, h]

/-- Witness for C2: a derived filename ending in a path separator has an
empty basename and falls back to the timestamp name. -/
theorem c2_filename_sanitization_witness :
    access_data_filename (some "filename=abc/") 42
      = "download_" ++ toString 42 ++ ".dat" :=
  c2_filename_sanitization.2 (some "filename=abc/") 42 rfl

/-! ## C3: the two dataset keys of the catalog response -/

/-- C3 counterexample.  A response with a present-but-empty
`dcat:dataset` next to a non-empty `edc:datasets` yields the empty
result, while the same collection under `dcat:dataset` alone yields the
collection: the two outputs differ, against the claimed equivalence. -/
theorem c3_counterexample :
    request_catalog (.obj [("dcat:dataset", .arr []),
        ("edc:datasets", .arr [.obj [("@id", .str "asset-1")]])]) none = .ok none
  ∧ request_catalog (.obj [("dcat:dataset", .arr [.obj [("@id", .str "asset-1")]])]) none
      = .ok (some (.arr [.obj [("@id", .str "asset-1")]]))
  ∧ ((Except.ok none : Except String (Option JVal))
      ≠ Except.ok (some (JVal.arr [.obj [("@id", .str "asset-1")]]))) :=
  ⟨rfl, rfl, by simp⟩

/-- C3 (amended).  `edc:datasets` is consulted only when the key
`dcat:dataset` is absent: with a single present key the two keys give
identical normalized output, but a present-and-empty `dcat:dataset`
masks any `edc:datasets` value and yields the empty result. -/
theorem c3_dataset_key_equivalence (v : JVal) (filter : Option String) :
    request_catalog (.obj [("edc:datasets", v)]) filter
      = request_catalog (.obj [("dcat:dataset", v)]) filter
  ∧ (∀ w : JVal,
      request_catalog (.obj [("dcat:dataset", .arr []), ("edc:datasets", w)]) filter
        = .ok none) :=
  ⟨rfl, fun _ => rfl⟩

/-! ## C4: failure reporting of the catalog resolver -/

/-- C4 counterexample.  An explicit error response and a
target-not-found response are reported by `request_catalog` with the
same empty `None` return value, so the two failure conditions are not
distinguished by the result. -/
theorem c4_counterexample :
    request_catalog (.obj [("error", .str "connection refused")]) (some "asset-1")
        = .ok none
  ∧ request_catalog (.obj [("dcat:dataset", .arr [.obj [("@id", .str "other")]])])
        (some "asset-1") = .ok none :=
  ⟨rfl, rfl⟩

/-- C4 (amended).  `request_catalog` collapses its failure conditions to
the same `None` return value: every truthy error response and every
not-found outcome under an id filter produce the identical empty
result (the conditions are distinguished only in logs, not in the
returned value). -/
theorem c4_failure_collapse :
    (∀ (e : JVal) (filter : Option String), truthy e = true →
      request_catalog (.obj [("error", e)]) filter = .ok none)
  ∧ (∀ (dsid a : String), (dsid == a) = false → (a == "") = false →
      request_catalog (.obj [("dcat:dataset", .obj [("@id", .str dsid)])]) (some a)
        = .ok none) := by
  constructor
  · intro e filter he
    have ht : truthy (JVal.obj [("error", e)]) = true := by simp [truthy]
    simp [request_catalog, getField, ht, he]
  · intro dsid a hne ha
    simp [request_catalog, getField, normalizeDatasets, catalogDatasets,
      getFieldD, optStrTruthy, isStrEq, truthy, hne, ha]

/-- Witness for C4: both failure families at concrete inputs. -/
theorem c4_failure_collapse_witness :
    request_catalog (.obj [("error", .str "boom")]) (some "asset-1") = .ok none
  ∧ request_catalog (.obj [("dcat:dataset", .obj [("@id", .str "other")])])
        (some "asset-1") = .ok none :=
  ⟨c4_failure_collapse.1 (.str "boom") (some "asset-1") rfl,
   c4_failure_collapse.2 "other" "asset-1" rfl rfl⟩

/-! ## C9: top-level JSON arrays in 2xx responses -/

/-- C9 counterexample.  A 2xx body parsing to the empty top-level array
is falsy in Python, so both `request_catalog` and `get_data_address`
return the `None` result without raising: the claim fails for the empty
array. -/
theorem c9_counterexample :
    request_catalog (.arr []) none = .ok none
  ∧ get_data_address (.arr []) = .ok none :=
  ⟨rfl, rfl⟩

/-- C9 (amended).  A 2xx body parsing to a non-empty top-level JSON
array makes `request_catalog` and `get_data_address` raise an uncaught
`AttributeError` (the error check calls the dict-only `.get` on the
parsed body) instead of returning a result or a structured error. -/
theorem c9_array_raises (x : JVal) (xs : List JVal) (filter : Option String) :
    request_catalog (.arr (x :: xs)) filter
        = .error "AttributeError: get on non-dict response"
  ∧ get_data_address (.arr (x :: xs))
        = .error "AttributeError: get on non-dict response" :=
  ⟨rfl, rfl⟩

/-! ## C7: filtered catalog lookup -/

/-- C7 (confirmed).  Under an id filter: a single-object dataset value
is accepted exactly when its `@id` equals the filter; a collection is
linearly scanned for the first element whose `@id` equals the filter;
and for every dict-shaped response the function terminates normally
with a result, never an exception. -/
theorem c7_filtered_catalog (fs : PyDict) (a : String)
    (ha : (a == "") = false)
    (hErr : truthy (getField fs "error") = false) :
    (∀ dfs : PyDict, catalogDatasets fs = .obj dfs →
      request_catalog (.obj fs) (some a)
        = .ok (if isStrEq (getField dfs "@id") a then some (.obj dfs) else none))
  ∧ (∀ items : List JVal, catalogDatasets fs = .arr items →
      request_catalog (.obj fs) (some a) = .ok (findDatasetById a items))
  ∧ (∀ (gs : PyDict) (filter : Option String),
      ∃ o, request_catalog (.obj gs) filter = .ok o) := by
  refine ⟨?_, ?_, ?_⟩
  · intro dfs hd
    cases fs with
    | nil => exact absurd hd (by simp [catalogDatasets, getFieldD, getField])
    | cons p rest =>
      have ht : truthy (JVal.obj (p :: rest)) = true := by simp [truthy]
      simp only [request_catalog, ht, Bool.not_true, Bool.false_eq_true, if_false,
        hErr, if_neg]
      rw [hd]
      cases dfs with
      | nil => simp [normalizeDatasets, truthy, getField, isStrEq]
      | cons q qs =>
        have ht2 : truthy (JVal.obj (q :: qs)) = true := by simp [truthy]
        simp [normalizeDatasets, ht2, optStrTruthy, ha]
  · intro items hd
    cases fs with
    | nil => exact absurd hd (by simp [catalogDatasets, getFieldD, getField])
    | cons p rest =>
      have ht : truthy (JVal.obj (p :: rest)) = true := by simp [truthy]
      simp only [request_catalog, ht, Bool.not_true, Bool.false_eq_true, if_false,
        hErr, if_neg]
      rw [hd]
      cases items with
      | nil => simp [normalizeDatasets, truthy, findDatasetById]
      | cons q qs =>
        have ht2 : truthy (JVal.arr (q :: qs)) = true := by simp [truthy]
        simp [normalizeDatasets, ht2, optStrTruthy, ha]
  · intro gs filter
    by_cases hg : truthy (.obj gs) = true
    · by_cases he : truthy (getField gs "error") = true
      · exact ⟨none, by simp [request_catalog, hg, he]⟩
      · refine ⟨normalizeDatasets filter (catalogDatasets gs), ?_⟩
        simp only [Bool.not_eq_true] at he
        simp [request_catalog, hg, he]
    · simp only [Bool.not_eq_true] at hg
      exact ⟨none, by simp [request_catalog, hg]⟩

/-- Witness for C7: accept on id match in a singleton response, report
not-found for an absent id in a list response. -/
theorem c7_filtered_catalog_witness :
    request_catalog (.obj [("dcat:dataset", .obj [("@id", .str "asset-1")])])
        (some "asset-1") = .ok (some (.obj [("@id", .str "asset-1")]))
  ∧ request_catalog (.obj [("dcat:dataset", .arr [.obj [("@id", .str "x")]])])
        (some "absent") = .ok none :=
  ⟨(c7_filtered_catalog [("dcat:dataset", .obj [("@id", .str "asset-1")])] "asset-1"
      rfl rfl).1 [("@id", .str "asset-1")] rfl,
   (c7_filtered_catalog [("dcat:dataset", .arr [.obj [("@id", .str "x")]])] "absent"
      rfl rfl).2.1 [.obj [("@id", .str "x")]] rfl⟩

/-! ## C1: poller determinism -/

/-- Success run of the polling loop with zero request durations: when
the scripted responses before index `m` (relative to `k`) contain no
finalized entry and the one at index `m` does, the loop returns that
entry after exactly `m + 1` further requests. -/
theorem pollLoop_success (filter : Option String) (timeout interval : Nat)
    (script : Nat → JVal) (tp entry : JVal) :
    ∀ (m fuel k e : Nat),
      (∀ i, i < m → scanEdrResponse filter (script (k + i)) = none) →
      scanEdrResponse filter (script (k + m)) = some (tp, entry) →
      e + m * interval < timeout → m < fuel →
      pollLoop filter timeout interval script (fun _ => 0) fuel k e
        = ⟨k + m + 1, e + m * interval, some tp, some entry⟩ := by
  intro m
  induction m with
  | zero =>
    intro fuel k e hpre hm hlt hfuel
    match fuel, hfuel with
    | fuel + 1, _ =>
      rw [Nat.add_zero] at hm
      simp only [Nat.zero_mul, Nat.add_zero] at hlt ⊢
      simp [pollLoop, hm, Nat.not_le.mpr hlt]
  | succ m ih =>
    intro fuel k e hpre hm hlt hfuel
    match fuel, hfuel with
    | fuel + 1, _ =>
      have hle : e < timeout := by
        have : m.succ * interval ≥ 0 := Nat.zero_le _
        omega
      have h0 : scanEdrResponse filter (script k) = none := by
        have := hpre 0 (Nat.succ_pos m)
        rwa [Nat.add_zero] at this
      have hrec := ih fuel (k + 1) (e + interval)
        (fun i hi => by
          have := hpre (i + 1) (by omega)
          rwa [show k + (i + 1) = k + 1 + i by omega] at this)
        (by rwa [show k + 1 + m = k + (m + 1) by omega])
        (by
          have hsm : (m + 1) * interval = m * interval + interval := by
            rw [Nat.succ_mul]
          omega)
        (by omega)
      simp only [pollLoop, h0]
      rw [if_neg (by omega)]
      simp only [Nat.add_zero]
      rw [if_neg (by omega)]
      rw [hrec]
      have hsm : (m + 1) * interval = m * interval + interval := by rw [Nat.succ_mul]
      refine congrArg₂ (fun a b => PollOutcome.mk a b (some tp) (some entry)) ?_ ?_
      · omega
      · omega

/-- Timeout run of the polling loop: when no scripted response ever
contains a finalized entry and the fuel dominates the remaining time
budget, the loop returns the empty result with elapsed time at least
the timeout. -/
theorem pollLoop_timeout (filter : Option String) (timeout interval : Nat)
    (script : Nat → JVal) (reqDur : Nat → Nat) (hI : 0 < interval)
    (hnone : ∀ i, scanEdrResponse filter (script i) = none) :
    ∀ (fuel k e : Nat), timeout + 1 ≤ fuel + e →
      (pollLoop filter timeout interval script reqDur fuel k e).transferProcessId = none
    ∧ (pollLoop filter timeout interval script reqDur fuel k e).entry = none
    ∧ timeout ≤ (pollLoop filter timeout interval script reqDur fuel k e).elapsed := by
  intro fuel
  induction fuel with
  | zero =>
    intro k e hinv
    refine ⟨rfl, rfl, ?_⟩
    show timeout ≤ e
    omega
  | succ fuel ih =>
    intro k e hinv
    by_cases h : timeout ≤ e
    · simp [pollLoop, h]
    · simp only [pollLoop, hnone k, if_neg h]
      by_cases h2 : timeout ≤ e + reqDur k
      · simp [h2]
      · simp only [if_neg h2]
        exact ih (k + 1) (e + reqDur k + interval) (by omega)

/-- C1 (amended).  With zero request durations: when the response of
attempt `N` (1-indexed) is the first containing a matching entry whose
`transferProcessId` is truthy (non-null and non-empty) and
`N × interval < timeout`, `get_cached_edrs` returns that id and entry
after exactly `N` requests; and when no response ever contains a
matching truthy-finalized entry, it returns the empty result
`(none, none)` with elapsed time at least the timeout, issuing no
request after the deadline (the deadline is re-checked both before each
attempt and before each inter-attempt sleep). -/
theorem c1_poller_determinism (filter : Option String) (timeout interval : Nat)
    (script : Nat → JVal) (hI : 0 < interval) :
    (∀ (N : Nat) (tp entry : JVal), 0 < N →
      (∀ i, i + 1 < N → scanEdrResponse filter (script i) = none) →
      scanEdrResponse filter (script (N - 1)) = some (tp, entry) →
      N * interval < timeout →
      get_cached_edrs filter timeout interval script (fun _ => 0)
        = ⟨N, (N - 1) * interval, some tp, some entry⟩)
  ∧ (∀ reqDur : Nat → Nat,
      (∀ i, scanEdrResponse filter (script i) = none) →
      (get_cached_edrs filter timeout interval script reqDur).transferProcessId = none
    ∧ (get_cached_edrs filter timeout interval script reqDur).entry = none
    ∧ timeout ≤ (get_cached_edrs filter timeout interval script reqDur).elapsed) := by
  constructor
  · intro N tp entry hN hpre hm hlt
    have hNt : N ≤ N * interval := Nat.le_mul_of_pos_right N hI
    have h := pollLoop_success filter timeout interval script tp entry
      (N - 1) (timeout + 1) 0 0
      (fun i hi => by simpa using hpre i (by omega))
      (by simpa using hm)
      (by
        have : (N - 1) * interval ≤ N * interval := by
          exact Nat.mul_le_mul_right interval (by omega)
        omega)
      (by omega)
    rw [get_cached_edrs, h]
    refine congrArg₂ (fun a b => PollOutcome.mk a b (some tp) (some entry)) ?_ ?_ <;> omega
  · intro reqDur hnone
    exact pollLoop_timeout filter timeout interval script reqDur hI hnone
      (timeout + 1) 0 0 (by omega)

/-- The scripted response sequence of the C1 witness: the second
response (attempt 2) is the first carrying a finalized matching
entry. -/
def c1Script : Nat → JVal := fun i =>
  if i = 1 then
    .arr [.obj [("assetId", .str "asset-1"), ("transferProcessId", .str "tp-1")]]
  else
    .arr []

/-- Witness for C1: success after exactly 2 attempts with timeout 5 and
interval 1, applied to the concrete script. -/
theorem c1_poller_determinism_witness :
    get_cached_edrs (some "asset-1") 5 1 c1Script (fun _ => 0)
      = ⟨2, 1, some (.str "tp-1"),
          some (.obj [("assetId", .str "asset-1"), ("transferProcessId", .str "tp-1")])⟩ :=
  (c1_poller_determinism (some "asset-1") 5 1 c1Script (by decide)).1 2
    (.str "tp-1") (.obj [("assetId", .str "asset-1"), ("transferProcessId", .str "tp-1")])
    (by decide)
    (fun i hi => by
      have h0 : i = 0 := by omega
      rw [h0]
      rfl)
    rfl
    (by decide)

/-- C1 counterexample.  Every response contains a matching entry whose
`transferProcessId` is the empty string: non-null, so by the claim the
poller should succeed at attempt 1 and return it, but the code tests
truthiness, skips the entry, and times out with the empty result. -/
theorem c1_counterexample :
    get_cached_edrs (some "asset-1") 3 1
        (fun _ => .arr [.obj [("assetId", .str "asset-1"),
          ("transferProcessId", .str "")]]) (fun _ => 0)
      = ⟨3, 3, none, none⟩
  ∧ JVal.str "" ≠ JVal.null :=
  ⟨rfl, fun h => JVal.noConfusion h⟩

/-- Witness for C8 at a concrete one-dict heap. -/
theorem c8_policy_not_mutated_witness :
    (initiate_contract_heap [[("@id", .str "p1"), ("odrl:target", .str "old")]] 0
        "asset-1" "BPNL00000001").1.getD 0 []
      = [("@id", .str "p1"), ("odrl:target", .str "old")]
  ∧ (initiate_contract_heap [[("@id", .str "p1"), ("odrl:target", .str "old")]] 0
        "asset-1" "BPNL00000001").2 ≠ 0 :=
  ⟨(c8_policy_not_mutated [[("@id", .str "p1"), ("odrl:target", .str "old")]] 0
      "asset-1" "BPNL00000001" (by decide)).1,
   (c8_policy_not_mutated [[("@id", .str "p1"), ("odrl:target", .str "old")]] 0
      "asset-1" "BPNL00000001" (by decide)).2.1⟩

end Rox
